import Mathlib

/-!
Verification of the access-control subsystem of the gazeta.uz backend.

The definitions below are shallow embeddings of the TypeScript services:
`UserService` (role hierarchy, user removal), `ArticleService` and
`CommentService` (ownership-or-privileged-role mutation policy), and
`AuthService` (registration, login).  NestJS exceptions are modelled as an
error kind plus its message; Prisma stores are modelled as association
lists; `bcrypt` hashing/comparison and JWT signing are abstract function
parameters, since they are external libraries.
-/

namespace Gazeta

/-- The `Role` enum of the Prisma schema. -/
inductive Role
  | SUPER_ADMIN
  | ADMIN
  | EDITOR
  | REPORTER
  | USER
deriving DecidableEq, Repr, Fintype

/-- The kind of NestJS exception an operation throws. -/
inductive ErrKind
  | conflict
  | badRequest
  | notFound
  | forbidden
  | unauthorized
deriving DecidableEq, Repr

/-- A thrown NestJS exception: its class (kind) and message. -/
structure Err where
  kind : ErrKind
  msg : String
deriving DecidableEq, Repr

/-- Whether an operation succeeded (did not throw). -/
def allowed {α : Type} : Except Err α → Bool
  | .ok _ => true
  | .error _ => false

/-- The role-hierarchy table literal inside `UserService.validateRoleCreation`
(src/unnamed/part_005, lines 365-371). -/
def roleHierarchy : Role → List Role
  | .SUPER_ADMIN => [.ADMIN, .EDITOR, .REPORTER, .USER]
  | .ADMIN => [.EDITOR, .REPORTER, .USER]
  | .EDITOR => [.REPORTER, .USER]
  | .REPORTER => [.USER]
  | .USER => []

/-- The hierarchy table as §4.2 of the spec writes it (`REPORTER -> {}`),
kept separate so it can be compared with `roleHierarchy` from the source. -/
def specRoleHierarchy : Role → List Role
  | .SUPER_ADMIN => [.ADMIN, .EDITOR, .REPORTER, .USER]
  | .ADMIN => [.EDITOR, .REPORTER, .USER]
  | .EDITOR => [.REPORTER, .USER]
  | .REPORTER => []
  | .USER => []

/-- `UserService.validateRoleCreation`, parameterised by the hierarchy table
so that independence from the table can be stated.  The requesting user role
is `none` when the source receives the empty string (the seeding path). -/
def validateRoleCreationWith (table : Role → List Role)
    (requestingUserRole : Option Role) (targetRole : Role) :
    Except Err Unit :=
  if targetRole = .SUPER_ADMIN then
    .error ⟨.forbidden, "SUPER_ADMIN cannot be created through regular user creation"⟩
  else
    match requestingUserRole with
    | none => .ok ()
    | some r =>
      if targetRole ∈ table r then .ok ()
      else .error ⟨.forbidden, "Insufficient permissions to create user with this role"⟩

/-- `UserService.validateRoleCreation` with the table the source defines. -/
def validateRoleCreation (requestingUserRole : Option Role) (targetRole : Role) :
    Except Err Unit :=
  validateRoleCreationWith roleHierarchy requestingUserRole targetRole

/-- `UserService.validateRoleUpdate` (src/unnamed/part_005, lines 381-407):
the four checks in source order. -/
def validateRoleUpdate (requestingUserRole existingUserRole targetRole : Role)
    (targetUserId requestingUserId : Nat) : Except Err Unit :=
  if targetRole = .SUPER_ADMIN then
    .error ⟨.forbidden, "Cannot update user to SUPER_ADMIN role"⟩
  else if requestingUserRole ≠ .SUPER_ADMIN then
    .error ⟨.forbidden, "Only SUPER_ADMIN can change user roles"⟩
  else if existingUserRole = .SUPER_ADMIN then
    .error ⟨.forbidden, "Cannot modify SUPER_ADMIN role"⟩
  else if targetUserId = requestingUserId then
    .error ⟨.forbidden, "You cannot change your own role"⟩
  else .ok ()

/-- The spec's `canChangeRole(actorRole, existingTargetRole, newTargetRole, isSelf)`
read off `validateRoleUpdate`: the check is a function of whether the two ids
coincide, so it is expressed with a boolean self flag. -/
def canChangeRole (actorRole existingTargetRole newTargetRole : Role)
    (self : Bool) : Bool :=
  allowed (validateRoleUpdate actorRole existingTargetRole newTargetRole
    (if self then 0 else 1) 0)

/-- A stored user row, restricted to the fields the policies read. -/
structure UserRow where
  id : Nat
  role : Role
deriving DecidableEq, Repr

/-- `UserService.remove` (src/unnamed/part_005, lines 300-329): look the
target up, refuse SUPER_ADMIN targets, refuse self-deletion, else delete.
Returns the outcome and the resulting user table. -/
def userRemove (users : List UserRow) (id requestingUserId : Nat)
    (requestingUserRole : Role) : Except Err Unit × List UserRow :=
  match users.find? (fun u => u.id = id) with
  | none => (.error ⟨.notFound, "User with ID " ++ toString id ++ " not found"⟩, users)
  | some existingUser =>
    if existingUser.role = .SUPER_ADMIN then
      (.error ⟨.forbidden, "Cannot delete SUPER_ADMIN user"⟩, users)
    else if id = requestingUserId then
      (.error ⟨.forbidden, "You cannot delete your own account"⟩, users)
    else
      -- the requestingUserRole parameter is accepted but never read
      (.ok (), users.filter (fun u => u.id ≠ id))

/-- An article row restricted to the fields `ArticleService.update`/`remove`
read and write: `content` stands for the mutable payload fields. -/
structure ArticleRow where
  id : Nat
  authorId : Nat
  content : String
deriving DecidableEq, Repr

/-- The optional relations `UpdateArticleDto` may re-point. -/
structure UpdateArticleDto where
  content : Option String
  categoryId : Option Nat
  newspaperId : Option Nat
deriving DecidableEq, Repr

/-- Apply an `UpdateArticleDto` to one article row (the `prisma.article.update`
call). -/
def applyArticleUpdate (dto : UpdateArticleDto) (a : ArticleRow) : ArticleRow :=
  { a with content := dto.content.getD a.content }

/-- `ArticleService.update` (src/src/articles/dto/query-article.dto.ts,
lines 436-511): existence check, then the author-or-privileged-role check
(whose denial is a `BadRequestException`), then the category and newspaper
existence checks, then the persist step. -/
def articleUpdate (articles : List ArticleRow) (categories newspapers : List Nat)
    (id : Nat) (dto : UpdateArticleDto) (requestingUserId : Nat)
    (requestingUserRole : Role) : Except Err Unit × List ArticleRow :=
  match articles.find? (fun a => a.id = id) with
  | none =>
    (.error ⟨.notFound, "Article with ID " ++ toString id ++ " not found"⟩, articles)
  | some existingArticle =>
    if requestingUserRole ≠ .SUPER_ADMIN ∧ requestingUserRole ≠ .ADMIN ∧
        requestingUserRole ≠ .EDITOR ∧ existingArticle.authorId ≠ requestingUserId then
      (.error ⟨.badRequest, "You can only update your own articles"⟩, articles)
    else if dto.categoryId.any (fun cid => !categories.contains cid) then
      (.error ⟨.notFound, "Category not found"⟩, articles)
    else if dto.newspaperId.any (fun nid => !newspapers.contains nid) then
      (.error ⟨.notFound, "Newspaper not found"⟩, articles)
    else
      (.ok (), articles.map (fun a => if a.id = id then applyArticleUpdate dto a else a))

/-- `ArticleService.remove` (src/src/articles/dto/query-article.dto.ts,
lines 533-562): existence check, the same author-or-privileged-role check
(again a `BadRequestException` on denial), then the delete. -/
def articleRemove (articles : List ArticleRow) (id : Nat)
    (requestingUserId : Nat) (requestingUserRole : Role) :
    Except Err Unit × List ArticleRow :=
  match articles.find? (fun a => a.id = id) with
  | none =>
    (.error ⟨.notFound, "Article with ID " ++ toString id ++ " not found"⟩, articles)
  | some existingArticle =>
    if requestingUserRole ≠ .SUPER_ADMIN ∧ requestingUserRole ≠ .ADMIN ∧
        requestingUserRole ≠ .EDITOR ∧ existingArticle.authorId ≠ requestingUserId then
      (.error ⟨.badRequest, "You can only delete your own articles"⟩, articles)
    else
      (.ok (), articles.filter (fun a => a.id ≠ id))

/-- A comment row restricted to the fields `CommentService` reads and writes. -/
structure CommentRow where
  id : Nat
  userId : Nat
  text : String
deriving DecidableEq, Repr

/-- `CommentService.update` (src/src/comments/comment.service.ts, lines
184-232): existence check; a non-owner must be found in the user table with
role ADMIN, EDITOR or SUPER_ADMIN, otherwise `ForbiddenException`; then the
persist step. -/
def commentUpdate (comments : List CommentRow) (users : List UserRow)
    (id userId : Nat) (newText : String) : Except Err Unit × List CommentRow :=
  match comments.find? (fun c => c.id = id) with
  | none =>
    (.error ⟨.notFound, "Comment with ID " ++ toString id ++ " not found"⟩, comments)
  | some comment =>
    let proceed :=
      comments.map (fun c => if c.id = id then { c with text := newText } else c)
    if comment.userId ≠ userId then
      match users.find? (fun u => u.id = userId) with
      | none =>
        (.error ⟨.forbidden, "You can only update your own comments"⟩, comments)
      | some user =>
        if user.role ≠ .ADMIN ∧ user.role ≠ .EDITOR ∧ user.role ≠ .SUPER_ADMIN then
          (.error ⟨.forbidden, "You can only update your own comments"⟩, comments)
        else
          (.ok (), proceed)
    else
      (.ok (), proceed)

/-- `CommentService.remove` (src/src/comments/comment.service.ts, lines
254-288): existence check; a SUPER_ADMIN caller (by the role parameter)
deletes unconditionally; a non-owner must otherwise be found in the user
table with role ADMIN or EDITOR; then the delete. -/
def commentRemove (comments : List CommentRow) (users : List UserRow)
    (id userId : Nat) (userRole : Role) : Except Err Unit × List CommentRow :=
  match comments.find? (fun c => c.id = id) with
  | none =>
    (.error ⟨.notFound, "Comment with ID " ++ toString id ++ " not found"⟩, comments)
  | some comment =>
    let deleted := comments.filter (fun c => c.id ≠ id)
    if userRole = .SUPER_ADMIN then
      (.ok (), deleted)
    else if comment.userId ≠ userId then
      match users.find? (fun u => u.id = userId) with
      | none =>
        (.error ⟨.forbidden, "You can only delete your own comments"⟩, comments)
      | some user =>
        if user.role ≠ .ADMIN ∧ user.role ≠ .EDITOR then
          (.error ⟨.forbidden, "You can only delete your own comments"⟩, comments)
        else
          (.ok (), deleted)
    else
      (.ok (), deleted)

/-- A stored identity, the fields `AuthService` reads and writes. -/
structure StoredUser where
  id : Nat
  email : String
  fullName : String
  password : String
  avatar : Option String
  role : Role
deriving DecidableEq, Repr

/-- `RegisterDto` (src/src/auth/dto/register.dto.ts): the role is optional. -/
structure RegisterDto where
  email : String
  fullName : String
  password : String
  avatar : Option String
  role : Option Role
deriving DecidableEq, Repr

/-- `AuthService.register` (src/src/auth/auth.service.ts, lines 22-61):
duplicate-email check first, then the SUPER_ADMIN refusal, then hash and
persist; `role: registerDto.role || Role.USER` defaults a missing role to
USER.  Hashing is the abstract `hash` parameter (bcrypt).  Returns the
outcome (the created row) and the resulting store. -/
def register (hash : String → String) (db : List StoredUser)
    (dto : RegisterDto) : Except Err StoredUser × List StoredUser :=
  match db.find? (fun u => u.email = dto.email) with
  | some _ => (.error ⟨.conflict, "User with this email already exists"⟩, db)
  | none =>
    if dto.role = some .SUPER_ADMIN then
      (.error ⟨.forbidden, "Cannot register with SUPER_ADMIN role"⟩, db)
    else
      let user : StoredUser :=
        { id := db.length + 1
          email := dto.email
          fullName := dto.fullName
          password := hash dto.password
          avatar := dto.avatar
          role := dto.role.getD .USER }
      (.ok user, db ++ [user])

/-- `LoginDto` (src/src/auth/dto/login.dto.ts). -/
structure LoginDto where
  email : String
  password : String
deriving DecidableEq, Repr

/-- `AuthService.login` (src/src/auth/auth.service.ts, lines 63-93): an
unknown email and a failed password comparison throw the same
`UnauthorizedException('Invalid credentials')`.  Password comparison is the
abstract `compare` parameter (bcrypt.compare). -/
def login (compare : String → String → Bool) (db : List StoredUser)
    (dto : LoginDto) : Except Err StoredUser :=
  match db.find? (fun u => u.email = dto.email) with
  | none => .error ⟨.unauthorized, "Invalid credentials"⟩
  | some user =>
    if compare dto.password user.password then .ok user
    else .error ⟨.unauthorized, "Invalid credentials"⟩

/-- The identity claim the Token Service hands back on verification. -/
structure TokenClaims where
  sub : Nat
  role : Role
deriving DecidableEq, Repr

/-- A signed, time-bound token: claims, issuance and expiry instants, and
an abstract signature value. -/
structure AuthToken where
  sub : Nat
  role : Role
  issuedAt : Nat
  expiresAt : Nat
  signature : Nat
deriving DecidableEq, Repr

/-- Modelled from the spec: the Token Service implementation (the
`@nestjs/jwt` `sign`/`verify` pair configured in `AuthModule` and the
`JwtStrategy` decode step) is library code absent from the sources; §4.2
of the spec specifies `issue(subject-id, role)` as a deterministic claim
set `{sub, role}` signed with a server-held secret and a fixed expiry
offset from issuance time.  `sign` abstracts the signature computation
over the secret and the signed fields. -/
def tokenIssue (sign : String → Nat → Role → Nat → Nat) (secret : String)
    (expiryOffset : Nat) (now : Nat) (subjectId : Nat) (role : Role) : AuthToken :=
  { sub := subjectId
    role := role
    issuedAt := now
    expiresAt := now + expiryOffset
    signature := sign secret subjectId role (now + expiryOffset) }

/-- Modelled from the spec: `verify(token)` (§4.2) checks signature
integrity against the server secret, fails with `InvalidToken` on a
mismatch and with `ExpiredToken` when the current time exceeds the
embedded expiry, and otherwise returns the identity claim `{sub, role}`.
Both failures surface as unauthenticated. -/
def tokenVerify (sign : String → Nat → Role → Nat → Nat) (secret : String)
    (now : Nat) (tok : AuthToken) : Except Err TokenClaims :=
  if tok.signature ≠ sign secret tok.sub tok.role tok.expiresAt then
    .error ⟨.unauthorized, "InvalidToken"⟩
  else if tok.expiresAt ≤ now then
    .error ⟨.unauthorized, "ExpiredToken"⟩
  else
    .ok { sub := tok.sub, role := tok.role }

end Gazeta

open Gazeta

/-- C1: for every actor role (including the bootstrap path where none is
supplied) and for EVERY hierarchy table, assigning the target role
SUPER_ADMIN is denied on the user-creation path, and for every argument
combination the role-change path denies a new role of SUPER_ADMIN — so the
denial is decided before and independently of the hierarchy-table lookup. -/
theorem superAdminNeverAssignable :
    (∀ (table : Role → List Role) (actor : Option Role),
      validateRoleCreationWith table actor .SUPER_ADMIN =
        .error ⟨.forbidden, "SUPER_ADMIN cannot be created through regular user creation"⟩) ∧
    (∀ (a e : Role) (tid rid : Nat),
      validateRoleUpdate a e .SUPER_ADMIN tid rid =
        .error ⟨.forbidden, "Cannot update user to SUPER_ADMIN role"⟩) := by
  constructor
  · intro table actor
    rfl
  · intro a e tid rid
    rfl

/-- C2 counterexample: the pair (REPORTER, USER) is not covered by the
spec's hierarchy table (REPORTER's row is empty there), yet the code's
`validateRoleCreation` permits a REPORTER to create a USER — refuting the
claim that every pair outside the spec table is denied and that REPORTER
may create no role. -/
theorem reporterCanCreateUser :
    Role.USER ∉ specRoleHierarchy .REPORTER ∧
    allowed (validateRoleCreation (some .REPORTER) .USER) = true := by
  decide

/-- C2 amended: `canAssignRole` is default-deny over the CODE's hierarchy
table, whose REPORTER row is `{USER}` rather than the spec's empty row:
every (actor, target) pair whose target is not in the actor's row of the
code's table is denied; a USER actor may create no role; a REPORTER actor
may create exactly a USER. -/
theorem assignRoleDefaultDeny :
    (∀ (a t : Role), t ∉ roleHierarchy a →
      allowed (validateRoleCreation (some a) t) = false) ∧
    (∀ t : Role, allowed (validateRoleCreation (some .USER) t) = false) ∧
    (∀ t : Role, allowed (validateRoleCreation (some .REPORTER) t) = true ↔ t = .USER) := by
  refine ⟨?_, by decide, by decide⟩
  intro a t h
  revert h
  revert a t
  decide

/-- C2 amended witness: an ADMIN may not create an ADMIN (ADMIN is not in
ADMIN's row of the table). -/
theorem assignRoleDefaultDenyWitness :
    allowed (validateRoleCreation (some .ADMIN) .ADMIN) = false :=
  assignRoleDefaultDeny.1 .ADMIN .ADMIN (by decide)

/-- C3: the role-change validation permits a change exactly when the actor
is SUPER_ADMIN, the existing target role is not SUPER_ADMIN, the new role
is not SUPER_ADMIN and the target is not the actor themself; and the three
cited example evaluations hold. -/
theorem canChangeRoleCharacterization :
    (∀ (a e n : Role) (tid rid : Nat),
      allowed (validateRoleUpdate a e n tid rid) = true ↔
        (a = .SUPER_ADMIN ∧ e ≠ .SUPER_ADMIN ∧ n ≠ .SUPER_ADMIN ∧ tid ≠ rid)) ∧
    canChangeRole .SUPER_ADMIN .ADMIN .EDITOR false = true ∧
    canChangeRole .SUPER_ADMIN .SUPER_ADMIN .ADMIN false = false ∧
    canChangeRole .ADMIN .EDITOR .USER false = false := by
  refine ⟨?_, by decide, by decide, by decide⟩
  intro a e n tid rid
  unfold validateRoleUpdate
  by_cases h1 : n = .SUPER_ADMIN <;> by_cases h2 : a = .SUPER_ADMIN <;>
    by_cases h3 : e = .SUPER_ADMIN <;> by_cases h4 : tid = rid <;>
    simp [h1, h2, h3, h4, allowed]

/-- C4 counterexample: a USER actor (id 3) who is not the author (id 2) of
article 1 is denied, but the denial is a `BadRequestException` ("You can
only update your own articles"), not a forbidden error as the claim states;
the delete path likewise. -/
theorem articleDenialIsBadRequest :
    (articleUpdate [⟨1, 2, "a"⟩] [] [] 1 ⟨some "b", none, none⟩ 3 .USER).1 =
      .error ⟨.badRequest, "You can only update your own articles"⟩ ∧
    (articleRemove [⟨1, 2, "a"⟩] 1 3 .USER).1 =
      .error ⟨.badRequest, "You can only delete your own articles"⟩ ∧
    ErrKind.badRequest ≠ ErrKind.forbidden := by
  refine ⟨rfl, rfl, by decide⟩

/-- C4 amended: for every actor that is neither the article's author nor
holds a role in {EDITOR, ADMIN, SUPER_ADMIN}, article update and article
delete are denied with a bad-request error (not a forbidden one) and the
article store is returned unchanged — no partial application of the
mutation. -/
theorem articleMutationDenied :
    ∀ (arts : List ArticleRow) (cats nps : List Nat) (id : Nat)
      (dto : UpdateArticleDto) (uid : Nat) (r : Role) (a : ArticleRow),
    arts.find? (fun x => x.id = id) = some a →
    a.authorId ≠ uid →
    r ≠ .EDITOR → r ≠ .ADMIN → r ≠ .SUPER_ADMIN →
    articleUpdate arts cats nps id dto uid r =
      (.error ⟨.badRequest, "You can only update your own articles"⟩, arts) ∧
    articleRemove arts id uid r =
      (.error ⟨.badRequest, "You can only delete your own articles"⟩, arts) := by
  intro arts cats nps id dto uid r a hfind hauthor he ha hs
  unfold articleUpdate articleRemove
  rw [hfind]
  simp [hs, ha, he, hauthor]

/-- C4 amended witness: a concrete REPORTER non-author is denied on both
paths with the store unchanged. -/
theorem articleMutationDeniedWitness :
    articleUpdate [⟨1, 2, "a"⟩] [] [] 1 ⟨some "b", none, none⟩ 3 .REPORTER =
      (.error ⟨.badRequest, "You can only update your own articles"⟩, [⟨1, 2, "a"⟩]) ∧
    articleRemove [⟨1, 2, "a"⟩] 1 3 .REPORTER =
      (.error ⟨.badRequest, "You can only delete your own articles"⟩, [⟨1, 2, "a"⟩]) :=
  articleMutationDenied [⟨1, 2, "a"⟩] [] [] 1 ⟨some "b", none, none⟩ 3 .REPORTER
    ⟨1, 2, "a"⟩ (by decide) (by decide) (by decide) (by decide) (by decide)

/-- C6: user deletion is denied exactly when the target holds SUPER_ADMIN
or is the actor themself, independent of the actor's role (the outcome is
the same for any two actor roles); the SUPER_ADMIN target and the
self-target each produce the corresponding forbidden error, and on the
remaining targets the deletion proceeds. -/
theorem identityDeletionPolicy :
    ∀ (us : List UserRow) (id rid : Nat) (r1 r2 : Role) (t : UserRow),
    us.find? (fun u => u.id = id) = some t →
    (userRemove us id rid r1 = userRemove us id rid r2) ∧
    (allowed (userRemove us id rid r1).1 = true ↔
      (t.role ≠ .SUPER_ADMIN ∧ id ≠ rid)) ∧
    (t.role = .SUPER_ADMIN →
      userRemove us id rid r1 =
        (.error ⟨.forbidden, "Cannot delete SUPER_ADMIN user"⟩, us)) ∧
    (t.role ≠ .SUPER_ADMIN → id = rid →
      userRemove us id rid r1 =
        (.error ⟨.forbidden, "You cannot delete your own account"⟩, us)) := by
  intro us id rid r1 r2 t hfind
  unfold userRemove
  rw [hfind]
  by_cases hs : t.role = .SUPER_ADMIN <;> by_cases hid : id = rid <;>
    simp [hs, hid, allowed]

/-- C6 witness: the three cited evaluations at concrete stores — an ADMIN
actor cannot delete a SUPER_ADMIN target, no actor deletes themself, and
deleting a USER target that is not the actor proceeds. -/
theorem identityDeletionPolicyWitness :
    userRemove [⟨2, .SUPER_ADMIN⟩] 2 1 .ADMIN =
      (.error ⟨.forbidden, "Cannot delete SUPER_ADMIN user"⟩, [⟨2, .SUPER_ADMIN⟩]) ∧
    userRemove [⟨2, .USER⟩] 2 2 .ADMIN =
      (.error ⟨.forbidden, "You cannot delete your own account"⟩, [⟨2, .USER⟩]) ∧
    allowed (userRemove [⟨2, .USER⟩] 2 1 .ADMIN).1 = true :=
  ⟨(identityDeletionPolicy [⟨2, .SUPER_ADMIN⟩] 2 1 .ADMIN .ADMIN ⟨2, .SUPER_ADMIN⟩
      (by decide)).2.2.1 (by decide),
   (identityDeletionPolicy [⟨2, .USER⟩] 2 2 .ADMIN .ADMIN ⟨2, .USER⟩
      (by decide)).2.2.2 (by decide) (by decide),
   (identityDeletionPolicy [⟨2, .USER⟩] 2 1 .ADMIN .ADMIN ⟨2, .USER⟩
      (by decide)).2.1.mpr (by decide)⟩

/-- C5: comment mutation is ownership-or-privileged-role.  The owner may
always update or delete; a non-owner succeeds exactly when their stored
role is in {ADMIN, EDITOR, SUPER_ADMIN}, and is otherwise denied with the
forbidden errors; and a caller presenting role SUPER_ADMIN deletes any
existing comment unconditionally. -/
theorem commentMutationPolicy :
    (∀ (cs : List CommentRow) (us : List UserRow) (cid aid : Nat) (r : Role)
       (c : CommentRow) (txt : String),
      cs.find? (fun x => x.id = cid) = some c →
      us.find? (fun u => u.id = aid) = some ⟨aid, r⟩ →
      (c.userId = aid →
        allowed (commentUpdate cs us cid aid txt).1 = true ∧
        allowed (commentRemove cs us cid aid r).1 = true) ∧
      (c.userId ≠ aid →
        (allowed (commentUpdate cs us cid aid txt).1 = true ↔
          (r = .ADMIN ∨ r = .EDITOR ∨ r = .SUPER_ADMIN)) ∧
        (allowed (commentRemove cs us cid aid r).1 = true ↔
          (r = .ADMIN ∨ r = .EDITOR ∨ r = .SUPER_ADMIN)) ∧
        (r ≠ .ADMIN → r ≠ .EDITOR → r ≠ .SUPER_ADMIN →
          (commentUpdate cs us cid aid txt).1 =
            .error ⟨.forbidden, "You can only update your own comments"⟩ ∧
          (commentRemove cs us cid aid r).1 =
            .error ⟨.forbidden, "You can only delete your own comments"⟩))) ∧
    (∀ (cs : List CommentRow) (us : List UserRow) (cid aid : Nat)
       (c : CommentRow),
      cs.find? (fun x => x.id = cid) = some c →
      allowed (commentRemove cs us cid aid .SUPER_ADMIN).1 = true) := by
  constructor
  · intro cs us cid aid r c txt hc hu
    unfold commentUpdate commentRemove
    rw [hc, hu]
    by_cases how : c.userId = aid
    · cases r <;> simp [how, allowed]
    · cases r <;> simp [how, allowed]
  · intro cs us cid aid c hc
    unfold commentRemove
    rw [hc]
    simp [allowed]

/-- C5 witness: a USER owner updates their own comment; a non-owner ADMIN
deletes someone else's comment; a non-owner USER is denied. -/
theorem commentMutationPolicyWitness :
    allowed (commentUpdate [⟨1, 5, "x"⟩] [⟨5, .USER⟩] 1 5 "y").1 = true ∧
    allowed (commentRemove [⟨1, 5, "x"⟩] [⟨9, .ADMIN⟩] 1 9 .ADMIN).1 = true ∧
    (commentUpdate [⟨1, 5, "x"⟩] [⟨9, .USER⟩] 1 9 "y").1 =
      .error ⟨.forbidden, "You can only update your own comments"⟩ :=
  ⟨((commentMutationPolicy.1 [⟨1, 5, "x"⟩] [⟨5, .USER⟩] 1 5 .USER ⟨1, 5, "x"⟩ "y"
      (by decide) (by decide)).1 (by decide)).1,
   ((commentMutationPolicy.1 [⟨1, 5, "x"⟩] [⟨9, .ADMIN⟩] 1 9 .ADMIN ⟨1, 5, "x"⟩ "z"
      (by decide) (by decide)).2 (by decide)).2.1.mpr (Or.inl rfl),
   (((commentMutationPolicy.1 [⟨1, 5, "x"⟩] [⟨9, .USER⟩] 1 9 .USER ⟨1, 5, "x"⟩ "y"
      (by decide) (by decide)).2 (by decide)).2.2 (by decide) (by decide) (by decide)).1⟩

/-- C7: on a fresh email with supplied role SUPER_ADMIN, registration
fails with the ForbiddenRole error and the store is returned unchanged (no
identity created); on an already-taken email it fails with the
DuplicateIdentity (conflict) error, also leaving the store unchanged. -/
theorem registerRoleGate :
    ∀ (hashF : String → String) (db : List StoredUser) (dto : RegisterDto),
    (db.find? (fun u => u.email = dto.email) = none →
      dto.role = some .SUPER_ADMIN →
      register hashF db dto =
        (.error ⟨.forbidden, "Cannot register with SUPER_ADMIN role"⟩, db)) ∧
    (∀ u : StoredUser, db.find? (fun u => u.email = dto.email) = some u →
      register hashF db dto =
        (.error ⟨.conflict, "User with this email already exists"⟩, db)) := by
  intro hashF db dto
  constructor
  · intro hfind hrole
    unfold register
    rw [hfind, hrole]
    rfl
  · intro u hfind
    unfold register
    rw [hfind]

/-- C7 witness: registering `a@x` as SUPER_ADMIN against an empty store is
refused with the store still empty; registering `b@x` when `b@x` exists is
refused with the conflict error. -/
theorem registerRoleGateWitness :
    register (fun s => s) []
      ⟨"a@x", "N", "pw", none, some .SUPER_ADMIN⟩ =
      (.error ⟨.forbidden, "Cannot register with SUPER_ADMIN role"⟩, []) ∧
    register (fun s => s) [⟨1, "b@x", "M", "h", none, .USER⟩]
      ⟨"b@x", "N", "pw", none, some .USER⟩ =
      (.error ⟨.conflict, "User with this email already exists"⟩,
        [⟨1, "b@x", "M", "h", none, .USER⟩]) :=
  ⟨(registerRoleGate (fun s => s) [] ⟨"a@x", "N", "pw", none, some .SUPER_ADMIN⟩).1
      rfl rfl,
   (registerRoleGate (fun s => s) [⟨1, "b@x", "M", "h", none, .USER⟩]
      ⟨"b@x", "N", "pw", none, some .USER⟩).2 ⟨1, "b@x", "M", "h", none, .USER⟩
      (by decide)⟩

/-- C8: a login attempt with an unknown email and one with a known email
whose password fails the bcrypt comparison both return exactly the
unauthorized "Invalid credentials" error, so the two failure causes are
externally indistinguishable. -/
theorem loginIndistinguishable :
    ∀ (cmp : String → String → Bool) (db : List StoredUser)
      (d1 d2 : LoginDto) (u : StoredUser),
    db.find? (fun x => x.email = d1.email) = none →
    db.find? (fun x => x.email = d2.email) = some u →
    cmp d2.password u.password = false →
    login cmp db d1 = .error ⟨.unauthorized, "Invalid credentials"⟩ ∧
    login cmp db d2 = .error ⟨.unauthorized, "Invalid credentials"⟩ ∧
    login cmp db d1 = login cmp db d2 := by
  intro cmp db d1 d2 u h1 h2 hcmp
  unfold login
  rw [h1, h2]
  simp [hcmp]

/-- C8 witness: against a store holding only `a@x`, logging in as the
unknown `b@x` and as `a@x` with a wrong password yield the same error. -/
theorem loginIndistinguishableWitness :
    login (fun p h => p = h) [⟨1, "a@x", "N", "secret", none, .USER⟩]
      ⟨"b@x", "pw"⟩ = .error ⟨.unauthorized, "Invalid credentials"⟩ ∧
    login (fun p h => p = h) [⟨1, "a@x", "N", "secret", none, .USER⟩]
      ⟨"a@x", "wrong"⟩ = .error ⟨.unauthorized, "Invalid credentials"⟩ :=
  ⟨(loginIndistinguishable (fun p h => p = h)
      [⟨1, "a@x", "N", "secret", none, .USER⟩] ⟨"b@x", "pw"⟩ ⟨"a@x", "wrong"⟩
      ⟨1, "a@x", "N", "secret", none, .USER⟩ (by decide) (by decide) (by decide)).1,
   (loginIndistinguishable (fun p h => p = h)
      [⟨1, "a@x", "N", "secret", none, .USER⟩] ⟨"b@x", "pw"⟩ ⟨"a@x", "wrong"⟩
      ⟨1, "a@x", "N", "secret", none, .USER⟩ (by decide) (by decide) (by decide)).2.1⟩

/-- C9: verifying a token at its issuance instant (any positive expiry
offset) yields exactly the claim set it was issued with. -/
theorem tokenRoundTrip :
    ∀ (sign : String → Nat → Role → Nat → Nat) (secret : String)
      (off now subjectId : Nat) (r : Role),
    0 < off →
    tokenVerify sign secret now (tokenIssue sign secret off now subjectId r) =
      .ok ⟨subjectId, r⟩ := by
  intro sign secret off now subjectId r hoff
  unfold tokenVerify tokenIssue
  simp
  omega

/-- C9 witness: a concrete token issued at time 10 with a one-hour expiry
verifies back to its subject and role. -/
theorem tokenRoundTripWitness :
    tokenVerify (fun _ _ _ _ => 0) "s" 10
      (tokenIssue (fun _ _ _ _ => 0) "s" 3600 10 7 .EDITOR) = .ok ⟨7, .EDITOR⟩ :=
  tokenRoundTrip (fun _ _ _ _ => 0) "s" 3600 10 7 .EDITOR (by decide)

/-- C10: registration with a fresh email and any supplied role other than
SUPER_ADMIN succeeds, appending exactly one identity that carries exactly
the supplied role — so an unauthenticated caller can create, for example,
an ADMIN-level account. -/
theorem registerPersistsSuppliedRole :
    ∀ (hashF : String → String) (db : List StoredUser) (dto : RegisterDto)
      (r : Role),
    db.find? (fun u => u.email = dto.email) = none →
    dto.role = some r → r ≠ .SUPER_ADMIN →
    ∃ u : StoredUser,
      register hashF db dto = (.ok u, db ++ [u]) ∧
      u.role = r ∧ u.email = dto.email := by
  intro hashF db dto r hfind hrole hns
  unfold register
  rw [hfind]
  have hne : ¬(dto.role = some Role.SUPER_ADMIN) := by
    rw [hrole]
    simp [hns]
  rw [if_neg hne]
  exact ⟨_, rfl, by rw [hrole]; rfl, rfl⟩

/-- C10 witness: registering a fresh email with role ADMIN against an
empty store succeeds with the persisted identity holding role ADMIN. -/
theorem registerPersistsSuppliedRoleWitness :
    ∃ u : StoredUser,
      register (fun s => s) [] ⟨"a@x", "N", "pw", none, some .ADMIN⟩ =
        (.ok u, [] ++ [u]) ∧ u.role = .ADMIN ∧ u.email = "a@x" :=
  registerPersistsSuppliedRole (fun s => s) []
    ⟨"a@x", "N", "pw", none, some .ADMIN⟩ .ADMIN rfl rfl (by decide)
